import Mathlib

/-!
Shallow embedding of the service worker of the radlett6652 repository
(the offline caching subsystem: request classification, the three
request-handling strategies, the background refresh task, and the
install lifecycle step), together with theorems settling the claims
about it.

Conventions of the embedding:
* an HTTP response is a status code and a body; `Response.ok` is the
  platform's `ok` flag (status in the 200..299 range);
* a cache partition is an association list from URL key to the stored
  response; `CacheStorage` maps partition names to partitions;
* the network is a function from requests to `Except String Response`:
  `Except.error e` models `fetch` rejecting (throwing) with error `e`,
  `Except.ok r` models `fetch` resolving with response `r` (which may
  have a non-ok status such as 404 without throwing);
* each handler returns its result together with the updated cache and a
  trace of cache-read, network-call and cache-write events, in the order
  the source performs them, so that ordering claims can be stated.

Platform facts used by the embedding (the Cache Storage API contract the
worker runs against): `cache.match(request)` resolves with a stored
response only for GET requests (the worker never passes `ignoreMethod`),
so a non-GET request matches nothing; `cache.put(request, response)`
rejects with a TypeError when the request method is not GET, so a
rejected fire-and-forget put leaves the partition unchanged.
-/

structure Response where
  status : Nat
  body : String
deriving DecidableEq, Repr

/-- The platform's `response.ok` flag: status in the 200..299 range. -/
def Response.ok (r : Response) : Bool :=
  decide (200 ≤ r.status) && decide (r.status < 300)

structure Request where
  method : String
  url : String
  pathname : String
deriving DecidableEq, Repr

/-- A cache partition: URL key to last stored response. -/
abbrev Cache := List (String × Response)

/-- The network: `fetch` either rejects with an error or resolves with a
response. -/
abbrev Net := Request → Except String Response

/-- Store a response under a URL key, overwriting any previous entry. -/
def cachePutUrl (c : Cache) (url : String) (r : Response) : Cache :=
  (url, r) :: c.filter (fun kv => !(kv.1 == url))

/-- Cache API `cache.match(request)`: resolves with the stored response
only for GET requests (`ignoreMethod` is never set by this worker); a
non-GET request matches nothing. -/
def cacheMatch (c : Cache) (req : Request) : Option Response :=
  if req.method = "GET" then c.lookup req.url else none

/-- Cache API `cache.put(request, response)`: rejects with a TypeError
when the request method is not GET; otherwise stores the response under
the request URL, overwriting any previous entry. -/
def cachePut (c : Cache) (req : Request) (resp : Response) : Except String Cache :=
  if req.method = "GET" then Except.ok (cachePutUrl c req.url resp)
  else Except.error "TypeError"

/-- Observable steps of a handler, in source order. -/
inductive Event where
  | cacheRead (part : String) (url : String)
  | netCall (url : String)
  | cacheWrite (part : String) (url : String)
  | respond
deriving DecidableEq, Repr

/- Constants of the worker (source lines 1-19). -/

def CACHE_NAME : String := "radlett-lodge-v1"

def API_CACHE_NAME : String := "radlett-lodge-api-v1"

def STATIC_CACHE_NAME : String := "radlett-lodge-static-v1"

def urlsToCache : List String :=
  ["/", "/src/main.tsx", "/src/index.css",
   "https://fonts.googleapis.com/css2?family=Open+Sans:wght@400;500;600&family=Playfair+Display:wght@400;600;700&display=swap"]

def API_ENDPOINTS : List String :=
  ["/api/documents", "/api/members", "/api/minutes", "/api/events", "/api/news"]

/- Substring containment, used for the classifier's
`pathname.includes(endpoint)`. -/

def listStartsWith : List Char → List Char → Bool
  | _, [] => true
  | [], _ :: _ => false
  | a :: as, b :: bs => a = b && listStartsWith as bs

def listContainsSub (pat : List Char) : List Char → Bool
  | [] => listStartsWith [] pat
  | c :: rest => listStartsWith (c :: rest) pat || listContainsSub pat rest

/-- JS `s.includes(pat)`: `pat` occurs as a contiguous substring of `s`. -/
def strIncludes (s pat : String) : Bool :=
  listContainsSub pat.toList s.toList

/-- Source lines 124-127: `isApiRequest(pathname)`. -/
def isApiRequest (pathname : String) : Bool :=
  API_ENDPOINTS.any (fun e => strIncludes pathname e) ||
    strIncludes pathname "/functions/v1/"

def STATIC_EXTENSIONS : List String :=
  ["js", "css", "png", "jpg", "jpeg", "gif", "svg", "woff", "woff2", "ttf", "eot", "ico"]

/-- Suffix test over the character lists (JS `$`-anchored match). -/
def strEndsWith (s pat : String) : Bool :=
  listStartsWith s.toList.reverse pat.toList.reverse

/-- Source lines 129-131: `isStaticAsset(pathname)`, the anchored
alternation regex on the file extension. -/
def isStaticAsset (pathname : String) : Bool :=
  STATIC_EXTENSIONS.any (fun e => strEndsWith pathname ("." ++ e))

inductive Category where
  | api
  | staticAsset
  | navigation
deriving DecidableEq, Repr

/-- The fetch listener's classification (source lines 30-46): api first,
else static asset, else navigation. -/
def classify (pathname : String) : Category :=
  if isApiRequest pathname then Category.api
  else if isStaticAsset pathname then Category.staticAsset
  else Category.navigation

/- The API strategy (source lines 48-80). -/

structure ApiOut where
  result : Except String Response
  cache : Cache
  trace : List Event
  refreshSpawned : Bool
deriving Repr

/-- Source lines 62-79: the network part of `handleApiRequest` (the
`try`/`catch` after the cache-first branch). `tr` is the trace
accumulated before it. The `cache.put` on line 68 is fire-and-forget,
but it is guarded by `request.method === 'GET'` so it never rejects; a
rejected put would leave the cache unchanged without failing the
handler. The `catch` block re-reads the cache (line 74) for every
method. -/
def apiNetworkFetch (net : Net) (req : Request) (cache : Cache) (tr : List Event) : ApiOut :=
  match net req with
  | Except.ok networkResponse =>
    if req.method = "GET" ∧ networkResponse.ok = true then
      match cachePut cache req networkResponse with
      | Except.ok cache2 =>
        { result := Except.ok networkResponse, cache := cache2,
          trace := tr ++ [Event.netCall req.url, Event.cacheWrite "api" req.url],
          refreshSpawned := false }
      | Except.error _ =>
        { result := Except.ok networkResponse, cache := cache,
          trace := tr ++ [Event.netCall req.url], refreshSpawned := false }
    else
      { result := Except.ok networkResponse, cache := cache,
        trace := tr ++ [Event.netCall req.url], refreshSpawned := false }
  | Except.error e =>
    match cacheMatch cache req with
    | some cached =>
      { result := Except.ok cached, cache := cache,
        trace := tr ++ [Event.netCall req.url, Event.cacheRead "api" req.url],
        refreshSpawned := false }
    | none =>
      { result := Except.error e, cache := cache,
        trace := tr ++ [Event.netCall req.url, Event.cacheRead "api" req.url],
        refreshSpawned := false }

/-- Source lines 48-80: `handleApiRequest`. For GET requests the cache
is read first; on a hit the cached response is returned and a background
refresh is spawned (line 57, not awaited); otherwise the handler falls
through to the network path. -/
def handleApiRequest (net : Net) (req : Request) (cache : Cache) : ApiOut :=
  if req.method = "GET" then
    match cacheMatch cache req with
    | some cachedResponse =>
      { result := Except.ok cachedResponse, cache := cache,
        trace := [Event.cacheRead "api" req.url], refreshSpawned := true }
    | none => apiNetworkFetch net req cache [Event.cacheRead "api" req.url]
  else
    apiNetworkFetch net req cache []

/- The background refresh task (source lines 111-121). -/

structure RefreshOut where
  cache : Cache
  trace : List Event
deriving Repr

/-- Source lines 111-121: `updateCacheInBackground`. Fetch again; on an
ok response overwrite the cached entry; on any failure or non-ok
response leave the cache unchanged (errors are swallowed). -/
def updateCacheInBackground (net : Net) (req : Request) (cache : Cache) : RefreshOut :=
  match net req with
  | Except.error _ => { cache := cache, trace := [Event.netCall req.url] }
  | Except.ok networkResponse =>
    if networkResponse.ok = true then
      match cachePut cache req networkResponse with
      | Except.ok cache2 =>
        { cache := cache2,
          trace := [Event.netCall req.url, Event.cacheWrite "api" req.url] }
      | Except.error _ => { cache := cache, trace := [Event.netCall req.url] }
    else { cache := cache, trace := [Event.netCall req.url] }

structure ApiRunOut where
  result : Except String Response
  cache : Cache
  trace : List Event
deriving Repr

/-- A whole API request turn: the handler runs, its response is chosen
(the `respond` event), and only then does the detached background
refresh (if one was spawned on line 57) run to completion on the event
loop. -/
def runApiRequest (net : Net) (req : Request) (cache : Cache) : ApiRunOut :=
  let h := handleApiRequest net req cache
  if h.refreshSpawned then
    let r := updateCacheInBackground net req h.cache
    { result := h.result, cache := r.cache,
      trace := h.trace ++ [Event.respond] ++ r.trace }
  else
    { result := h.result, cache := h.cache, trace := h.trace ++ [Event.respond] }

/- The static-asset strategy (source lines 83-97). -/

structure StaticOut where
  result : Except String Response
  cache : Cache
  trace : List Event
deriving Repr

/-- Source lines 83-97: `handleStaticAsset`. Cache first; on a miss
fetch from the network; `cache.put` on line 93 is fire-and-forget and
runs only for ok responses — when it rejects (non-GET request) the
partition is unchanged and the handler still returns the network
response. Network failures propagate (no `try`/`catch`). -/
def handleStaticAsset (net : Net) (req : Request) (cache : Cache) : StaticOut :=
  match cacheMatch cache req with
  | some cachedResponse =>
    { result := Except.ok cachedResponse, cache := cache,
      trace := [Event.cacheRead "static" req.url] }
  | none =>
    match net req with
    | Except.error e =>
      { result := Except.error e, cache := cache,
        trace := [Event.cacheRead "static" req.url, Event.netCall req.url] }
    | Except.ok networkResponse =>
      if networkResponse.ok = true then
        match cachePut cache req networkResponse with
        | Except.ok cache2 =>
          { result := Except.ok networkResponse, cache := cache2,
            trace := [Event.cacheRead "static" req.url, Event.netCall req.url,
                      Event.cacheWrite "static" req.url] }
        | Except.error _ =>
          { result := Except.ok networkResponse, cache := cache,
            trace := [Event.cacheRead "static" req.url, Event.netCall req.url] }
      else
        { result := Except.ok networkResponse, cache := cache,
          trace := [Event.cacheRead "static" req.url, Event.netCall req.url] }

/- The navigation strategy (source lines 100-108). The `catch` block is
`return cache.match('/') || new Response('Offline', { status: 503 })`.
In JS, `cache.match('/')` evaluates to a Promise object, and every
object is truthy, so the disjunction always selects the promise and the
`Response('Offline')` operand is dead; the async function then adopts
the promise, resolving with the cached shell or with `undefined`. The
embedding models the JS values involved explicitly. -/

inductive JSValue where
  | undef
  | response (r : Response)
  | promiseOf (p : Option Response)
deriving Repr

/-- JS truthiness of the values that can appear on line 106: `undefined`
is falsy; a `Response` object is truthy; a Promise object is truthy
regardless of what it will resolve to. -/
def JSValue.truthy : JSValue → Bool
  | JSValue.undef => false
  | JSValue.response _ => true
  | JSValue.promiseOf _ => true

/-- JS `a || b`. -/
def jsOr (a b : JSValue) : JSValue := if a.truthy then a else b

/-- Awaiting (adopting) a value returned from an async function:
a promise resolves to its payload, `undefined` stays `undefined`. -/
def jsAwait : JSValue → Option Response
  | JSValue.undef => none
  | JSValue.response r => some r
  | JSValue.promiseOf p => p

def offlineResponse : Response := { status := 503, body := "Offline" }

structure NavOut where
  result : Option Response
  trace : List Event
deriving Repr

/-- Source lines 100-108: `handleNavigation`. Network first; on a fetch
failure, line 106 evaluates `cache.match('/') || new Response('Offline',
{ status: 503 })` — the left operand is an (unsettled) Promise object
and hence truthy, so the disjunction yields the promise and the handler
resolves with whatever it resolves to, possibly `undefined`. `result =
none` models the handler resolving with `undefined` (no response). The
handler never writes to any cache. -/
def handleNavigation (net : Net) (req : Request) (staticCache : Cache) : NavOut :=
  match net req with
  | Except.ok r => { result := some r, trace := [Event.netCall req.url] }
  | Except.error _ =>
    let matchShell := JSValue.promiseOf (staticCache.lookup "/")
    { result := jsAwait (jsOr matchShell (JSValue.response offlineResponse)),
      trace := [Event.netCall req.url, Event.cacheRead "static" "/"] }

/- The install lifecycle step (source lines 21-28). -/

/-- Named cache partitions known to the cache storage. -/
abbrev CacheStorage := List (String × Cache)

/-- `caches.open(name)`: open-or-create. -/
def storageOpen (st : CacheStorage) (name : String) : CacheStorage :=
  if (st.lookup name).isSome then st else (name, []) :: st

def storageUpdate (st : CacheStorage) (name : String) (f : Cache → Cache) : CacheStorage :=
  st.map (fun nc => if nc.1 = name then (nc.1, f nc.2) else nc)

/-- The fetch phase of `cache.addAll(urls)`: every URL is fetched; the
batch succeeds only when every fetch resolves with an ok response
(`addAll` rejects on any failure or non-ok response and commits
nothing). -/
def addAllFetch (netS : String → Except String Response) : List String → Option (List (String × Response))
  | [] => some []
  | u :: rest =>
    match netS u, addAllFetch netS rest with
    | Except.ok r, some others => if r.ok = true then some ((u, r) :: others) else none
    | Except.ok _, none => none
    | Except.error _, _ => none

structure InstallOut where
  storage : CacheStorage
  trace : List Event
  success : Bool
deriving Repr

/-- Source lines 21-28: the install listener. Opens the static partition
and runs `cache.addAll(urlsToCache)` — which fetches every manifest URL
unconditionally, with no existence check — and opens (without
populating) the api partition. Install succeeds only if the whole batch
does. -/
def installStep (netS : String → Except String Response) (st : CacheStorage) : InstallOut :=
  let st2 := storageOpen (storageOpen st STATIC_CACHE_NAME) API_CACHE_NAME
  let fetchTrace := urlsToCache.map (fun u => Event.netCall u)
  match addAllFetch netS urlsToCache with
  | none => { storage := st2, trace := fetchTrace, success := false }
  | some pairs =>
    { storage := storageUpdate st2 STATIC_CACHE_NAME
        (fun c => pairs.foldl (fun acc p => cachePutUrl acc p.1 p.2) c),
      trace := fetchTrace ++ pairs.map (fun p => Event.cacheWrite "static" p.1),
      success := true }

/-- Number of network calls recorded in a trace. -/
def countNetCalls (tr : List Event) : Nat :=
  (tr.filter (fun e => match e with | Event.netCall _ => true | _ => false)).length

/-- Holds when every network call in the trace is strictly preceded by
some cache read; the first argument records whether a cache read has
been seen already. -/
def netAfterRead : Bool → List Event → Bool
  | _, [] => true
  | _, Event.cacheRead _ _ :: rest => netAfterRead true rest
  | seen, Event.netCall _ :: rest => seen && netAfterRead seen rest
  | seen, Event.cacheWrite _ _ :: rest => netAfterRead seen rest
  | seen, Event.respond :: rest => netAfterRead seen rest

/- Concrete objects used by witnesses and counterexamples. -/

def failNet : Net := fun _ => Except.error "NetworkFailure"

def okNetS : String → Except String Response := fun _ => Except.ok { status := 200, body := "shell" }

def membersReq : Request :=
  { method := "GET", url := "https://radlett6652.org/api/members", pathname := "/api/members" }

def postMembersReq : Request :=
  { method := "POST", url := "https://radlett6652.org/api/members", pathname := "/api/members" }

def navReq : Request :=
  { method := "GET", url := "https://radlett6652.org/dashboard", pathname := "/dashboard" }

def postNavReq : Request :=
  { method := "POST", url := "https://radlett6652.org/submit", pathname := "/submit" }

def mainJsReq : Request :=
  { method := "GET", url := "https://radlett6652.org/main.js", pathname := "/main.js" }

def membersResponse : Response := { status := 200, body := "members-v1" }

def shellResponse : Response := { status := 200, body := "shell-html" }

def notFoundResponse : Response := { status := 404, body := "not found" }

/- Extra concrete networks for witnesses. -/

def netMembers : Net := fun _ => Except.ok membersResponse

def net404 : Net := fun _ => Except.ok notFoundResponse

/- Helper lemmas (shared). -/

theorem lookup_cachePutUrl_self (c : Cache) (u : String) (r : Response) :
    (cachePutUrl c u r).lookup u = some r := by
  simp [cachePutUrl, List.lookup]

theorem countNetCalls_append (a b : List Event) :
    countNetCalls (a ++ b) = countNetCalls a + countNetCalls b := by
  simp [countNetCalls, List.filter_append]

theorem countNetCalls_cacheWrites (l : List (String × Response)) (p : String) :
    countNetCalls (l.map (fun q => Event.cacheWrite p q.1)) = 0 := by
  induction l with
  | nil => rfl
  | cons h t ih => simpa [countNetCalls, List.filter_cons] using ih

/-- C1: the claim says that a navigation request whose network fetch
fails, with no cached entry for the root URL, is answered with a 503
response with body Offline. On the code, line 106 returns
`cache.match('/') || new Response('Offline', { status: 503 })`, and the
left operand is a Promise object — truthy before it is awaited — so the
right operand is unreachable and the handler resolves with `undefined`
(no response), never with the synthesized offline response. Evaluated at
the failing input (network down, empty static partition). -/
theorem navigation_offline_fallback_dead :
    (handleNavigation failNet navReq []).result = none ∧
    (handleNavigation failNet navReq []).result ≠ some offlineResponse := by
  constructor <;> decide

/-- C5: every path containing a configured API endpoint substring (or
the functions segment) is classified `api`, taking precedence over the
static-extension test, and classification is total over the three
categories. -/
theorem classify_api_precedence_total (p : String) :
    (isApiRequest p = true → classify p = Category.api) ∧
    (classify p = Category.api ∨ classify p = Category.staticAsset ∨
      classify p = Category.navigation) := by
  constructor
  · intro h
    simp [classify, h]
  · by_cases h1 : isApiRequest p
    · simp [classify, h1]
    · by_cases h2 : isStaticAsset p <;> simp [classify, h1, h2]

/-- Witness for C5 at a path that is simultaneously an API path and has
a static extension: api wins. -/
theorem classify_api_precedence_total_witness :
    isApiRequest "/api/documents/report.css" = true ∧
    isStaticAsset "/api/documents/report.css" = true ∧
    classify "/api/documents/report.css" = Category.api :=
  ⟨by decide, by decide,
    (classify_api_precedence_total "/api/documents/report.css").1 (by decide)⟩

/-- C8: a static-asset request missing from the static partition whose
network fetch fails propagates that same failure, with no offline
substitution and no cache write. -/
theorem static_miss_network_failure_propagates (net : Net) (req : Request)
    (cache : Cache) (e : String)
    (hmiss : cacheMatch cache req = none) (hnet : net req = Except.error e) :
    (handleStaticAsset net req cache).result = Except.error e ∧
    (handleStaticAsset net req cache).cache = cache := by
  simp [handleStaticAsset, hmiss, hnet]

/-- Witness for C8: GET /main.js, empty cache, failing network. -/
theorem static_miss_network_failure_propagates_witness :
    (handleStaticAsset failNet mainJsReq []).result = Except.error "NetworkFailure" ∧
    (handleStaticAsset failNet mainJsReq []).cache = [] :=
  static_miss_network_failure_propagates failNet mainJsReq [] "NetworkFailure"
    (by decide) rfl

/-- C10: a static-asset cache miss answered by the network with a non-ok
status is returned unchanged but never written into the static
partition; and the background refresh leaves the cache — in particular
an existing cached entry for the refreshed key — unchanged when the
refreshed response is non-ok, whatever the cache holds; so a whole GET
API cache-hit turn whose spawned refresh gets a non-ok response ends
with the cache exactly as it started. -/
theorem non_ok_responses_never_cached (net : Net) (req : Request)
    (cache : Cache) (resp : Response)
    (hnet : net req = Except.ok resp) (hok : resp.ok = false) :
    (cacheMatch cache req = none →
      (handleStaticAsset net req cache).result = Except.ok resp ∧
      (handleStaticAsset net req cache).cache = cache) ∧
    (updateCacheInBackground net req cache).cache = cache ∧
    (∀ r : Response, req.method = "GET" → cacheMatch cache req = some r →
      (runApiRequest net req cache).cache = cache) := by
  refine ⟨?_, ?_, ?_⟩
  · intro hmiss
    simp [handleStaticAsset, hmiss, hnet, hok]
  · simp [updateCacheInBackground, hnet, hok]
  · intro r hget hhit
    simp [runApiRequest, handleApiRequest, updateCacheInBackground, hget, hhit,
      hnet, hok]

/-- Witness for C10 against a 404-answering network: the background
refresh of /api/members leaves the existing cached entry for that very
key unchanged, a full cache-hit turn ends with the cache as it started,
and a static-asset miss for /main.js returns the 404 without writing. -/
theorem non_ok_responses_never_cached_witness :
    (updateCacheInBackground net404 membersReq
      [(membersReq.url, membersResponse)]).cache =
      [(membersReq.url, membersResponse)] ∧
    (runApiRequest net404 membersReq [(membersReq.url, membersResponse)]).cache =
      [(membersReq.url, membersResponse)] ∧
    (handleStaticAsset net404 mainJsReq []).result = Except.ok notFoundResponse ∧
    (handleStaticAsset net404 mainJsReq []).cache = [] :=
  ⟨(non_ok_responses_never_cached net404 membersReq
      [(membersReq.url, membersResponse)] notFoundResponse rfl (by decide)).2.1,
   (non_ok_responses_never_cached net404 membersReq
      [(membersReq.url, membersResponse)] notFoundResponse rfl (by decide)).2.2
      membersResponse rfl (by decide),
   ((non_ok_responses_never_cached net404 mainJsReq [] notFoundResponse rfl
      (by decide)).1 (by decide)).1,
   ((non_ok_responses_never_cached net404 mainJsReq [] notFoundResponse rfl
      (by decide)).1 (by decide)).2⟩

/-- C2: on a GET API cache hit the handler returns exactly the stored
response, spawns the background refresh, the refresh's events all come
after the response is chosen, and the returned response does not depend
on the network at all (the caller never waits on the refresh). -/
theorem api_cache_hit_serves_cached_and_spawns_refresh (net : Net)
    (req : Request) (cache : Cache) (r : Response)
    (hget : req.method = "GET") (hhit : cacheMatch cache req = some r) :
    (runApiRequest net req cache).result = Except.ok r ∧
    (handleApiRequest net req cache).refreshSpawned = true ∧
    (runApiRequest net req cache).trace =
      [Event.cacheRead "api" req.url, Event.respond] ++
        (updateCacheInBackground net req cache).trace ∧
    (∀ net2 : Net, (handleApiRequest net2 req cache).result = Except.ok r) := by
  refine ⟨?_, ?_, ?_, ?_⟩ <;>
    simp [runApiRequest, handleApiRequest, hget, hhit]

/-- Witness for C2: GET /api/members with the entry cached and the
network down — the cached response is still served. -/
theorem api_cache_hit_witness :
    (runApiRequest failNet membersReq [(membersReq.url, membersResponse)]).result =
      Except.ok membersResponse ∧
    (handleApiRequest failNet membersReq [(membersReq.url, membersResponse)]).refreshSpawned = true :=
  ⟨(api_cache_hit_serves_cached_and_spawns_refresh failNet membersReq
      [(membersReq.url, membersResponse)] membersResponse rfl (by decide)).1,
   (api_cache_hit_serves_cached_and_spawns_refresh failNet membersReq
      [(membersReq.url, membersResponse)] membersResponse rfl (by decide)).2.1⟩

/-- C3: on a GET API cache miss, an ok network response is returned and
written into the api partition under the request key; a network failure
is re-checked against the cache (the second read is in the trace) and,
the key still being absent, is propagated unchanged with no cache write;
and every successful result of the handler comes from the cache or the
network — no synthesized offline response exists for API calls. -/
theorem api_cache_miss_network_paths (net : Net) (req : Request) (cache : Cache)
    (hget : req.method = "GET") (hmiss : cacheMatch cache req = none) :
    (∀ resp : Response, net req = Except.ok resp → resp.ok = true →
      (handleApiRequest net req cache).result = Except.ok resp ∧
      ((handleApiRequest net req cache).cache).lookup req.url = some resp) ∧
    (∀ e : String, net req = Except.error e →
      (handleApiRequest net req cache).result = Except.error e ∧
      (handleApiRequest net req cache).cache = cache ∧
      (handleApiRequest net req cache).trace =
        [Event.cacheRead "api" req.url, Event.netCall req.url,
         Event.cacheRead "api" req.url]) ∧
    (∀ r : Response, (handleApiRequest net req cache).result = Except.ok r →
      cacheMatch cache req = some r ∨ net req = Except.ok r) := by
  refine ⟨?_, ?_, ?_⟩
  · intro resp hnet hok
    simp [handleApiRequest, apiNetworkFetch, cachePut, hget, hmiss, hnet, hok,
      lookup_cachePutUrl_self]
  · intro e hnet
    simp [handleApiRequest, apiNetworkFetch, hget, hmiss, hnet]
  · intro r hr
    cases hnet : net req with
    | ok resp =>
      exact Or.inr (by
        simp [handleApiRequest, apiNetworkFetch, cachePut, hget, hmiss, hnet] at hr
        by_cases hok : resp.ok = true
        · simp_all [handleApiRequest, apiNetworkFetch, cachePut, hget, hmiss, hnet, hok]
        · simp_all [handleApiRequest, apiNetworkFetch, cachePut, hget, hmiss, hnet, hok])
    | error e =>
      simp [handleApiRequest, apiNetworkFetch, hget, hmiss, hnet] at hr

/-- Witness for C3: GET /api/members, empty cache, network answers 200 —
the response is returned and the entry now exists. -/
theorem api_cache_miss_witness :
    (handleApiRequest netMembers membersReq []).result = Except.ok membersResponse ∧
    ((handleApiRequest netMembers membersReq []).cache).lookup membersReq.url =
      some membersResponse :=
  (api_cache_miss_network_paths netMembers membersReq [] rfl (by decide)).1
    membersResponse rfl (by decide)

/-- Counterexample to C4: with an all-ok network, running the install
step a second time on the storage produced by the first one issues the
full manifest's worth of network calls again (`cache.addAll` has no
existence check), so the second install is not a no-op re-open and the
total network calls exceed the minimum needed to populate the static
partition once. -/
theorem install_twice_refetches_manifest :
    countNetCalls (installStep okNetS (installStep okNetS []).storage).trace = 4 ∧
    countNetCalls (installStep okNetS (installStep okNetS []).storage).trace ≠ 0 := by
  constructor <;> decide

/-- C4 amended: every run of the install step — in particular the second
of two consecutive runs with an unchanged manifest — issues exactly one
network call per manifest URL; the install is idempotent only in cache
state (under an ok-answering network the storage after the second run
equals the storage after the first), not in network-call count. -/
theorem install_second_run_refetches (netS : String → Except String Response)
    (st : CacheStorage) :
    countNetCalls (installStep netS (installStep netS st).storage).trace =
      urlsToCache.length ∧
    (installStep okNetS (installStep okNetS []).storage).storage =
      (installStep okNetS []).storage := by
  constructor
  · unfold installStep
    cases haf : addAllFetch netS urlsToCache with
    | none => simp [haf]; decide
    | some pairs =>
      simp [haf, countNetCalls_append, countNetCalls_cacheWrites]
      decide
  · decide

/-- Counterexample to C6: a non-GET request on the navigation path does
not go straight to network — with the network failing and the shell
cached, the POST navigation request is answered from the cache instead
of having the network failure propagated. (The no-write half of the
claim does hold; see the amended theorem.) -/
theorem non_get_navigation_served_from_cache :
    (handleNavigation failNet postNavReq [("/", shellResponse)]).result =
      some shellResponse ∧
    failNet postNavReq = Except.error "NetworkFailure" ∧
    postNavReq.method ≠ "GET" := by
  refine ⟨by decide, rfl, by decide⟩

/-- C6 amended: only GET requests are ever written to a cache partition
— for every non-GET request the api and static partitions are unchanged
after the call (success or failure), and the api and static handlers
return exactly the network outcome; the navigation handler writes
nothing either, but on network failure it may still answer a non-GET
request from the cached shell rather than propagating the failure. -/
theorem non_get_no_cache_write (net : Net) (req : Request) (cache : Cache)
    (h : ¬ req.method = "GET") :
    (handleApiRequest net req cache).cache = cache ∧
    (handleApiRequest net req cache).result = net req ∧
    (runApiRequest net req cache).cache = cache ∧
    (handleStaticAsset net req cache).cache = cache ∧
    (handleStaticAsset net req cache).result = net req := by
  have hm : cacheMatch cache req = none := by simp [cacheMatch, h]
  have hp : ∀ resp : Response, cachePut cache req resp = Except.error "TypeError" := by
    intro resp; simp [cachePut, h]
  cases hnet : net req with
  | ok resp =>
    by_cases hok : resp.ok = true <;>
      simp [handleApiRequest, apiNetworkFetch, runApiRequest, handleStaticAsset,
        hnet, h, hm, hp, hok]
  | error e =>
    simp [handleApiRequest, apiNetworkFetch, runApiRequest, handleStaticAsset,
      hnet, h, hm]

/-- Witness for C6 amended: POST /api/members with a 200-answering
network — nothing is written and the network response is returned. -/
theorem non_get_no_cache_write_witness :
    (handleApiRequest netMembers postMembersReq []).cache = [] ∧
    (handleApiRequest netMembers postMembersReq []).result =
      netMembers postMembersReq ∧
    (runApiRequest netMembers postMembersReq []).cache = [] ∧
    (handleStaticAsset netMembers postMembersReq []).cache = [] ∧
    (handleStaticAsset netMembers postMembersReq []).result =
      netMembers postMembersReq :=
  non_get_no_cache_write netMembers postMembersReq [] (by decide)

/-- Counterexample to C7: the non-GET API failure path does not skip the
cache entirely — the `catch` block performs a cache lookup (line 74)
even for a POST whose network fetch failed, as the trace records. -/
theorem non_get_api_failure_does_cache_lookup :
    Event.cacheRead "api" postMembersReq.url ∈
      (handleApiRequest failNet postMembersReq
        [(postMembersReq.url, membersResponse)]).trace ∧
    postMembersReq.method ≠ "GET" := by
  constructor <;> decide

/-- C7 amended: a non-GET API request is answered with the network
outcome, with no cached fallback, no cache write and no background
refresh; on the failure path the handler does perform one cache lookup,
which necessarily misses for a non-GET request, so it never changes the
outcome. -/
theorem non_get_api_network_passthrough (net : Net) (req : Request) (cache : Cache)
    (h : ¬ req.method = "GET") :
    (handleApiRequest net req cache).result = net req ∧
    (handleApiRequest net req cache).refreshSpawned = false ∧
    (∀ e : String, net req = Except.error e →
      (handleApiRequest net req cache).trace =
        [Event.netCall req.url, Event.cacheRead "api" req.url] ∧
      cacheMatch cache req = none) := by
  have hm : cacheMatch cache req = none := by simp [cacheMatch, h]
  refine ⟨?_, ?_, ?_⟩
  · cases hnet : net req with
    | ok resp =>
      by_cases hok : resp.ok = true <;>
        simp [handleApiRequest, apiNetworkFetch, cachePut, hnet, h, hm, hok]
    | error e => simp [handleApiRequest, apiNetworkFetch, hnet, h, hm]
  · cases hnet : net req with
    | ok resp =>
      by_cases hok : resp.ok = true <;>
        simp [handleApiRequest, apiNetworkFetch, cachePut, hnet, h, hm, hok]
    | error e => simp [handleApiRequest, apiNetworkFetch, hnet, h, hm]
  · intro e hnet
    simp [handleApiRequest, apiNetworkFetch, hnet, h, hm]

/-- Witness for C7 amended: POST /api/members against a failing network
— the failure is propagated and the lookup misses. -/
theorem non_get_api_network_passthrough_witness :
    (handleApiRequest failNet postMembersReq []).result =
      Except.error "NetworkFailure" ∧
    (handleApiRequest failNet postMembersReq []).trace =
      [Event.netCall postMembersReq.url, Event.cacheRead "api" postMembersReq.url] :=
  ⟨by rw [(non_get_api_network_passthrough failNet postMembersReq [] (by decide)).1]; rfl,
   ((non_get_api_network_passthrough failNet postMembersReq [] (by decide)).2.2
      "NetworkFailure" rfl).1⟩

/-- Counterexample to C9: in the navigation strategy the network call is
not preceded by any cache read — the strategy is network-first, so the
claimed ordering (cache read before any network call, for all three
strategies) fails. -/
theorem navigation_net_before_cache_read :
    netAfterRead false (handleNavigation failNet navReq [("/", shellResponse)]).trace =
      false := by
  decide

/-- C9 amended: for GET API requests and for all static-asset requests
every network call is preceded by a cache read; the caller's response
for an API request is fixed before the background refresh runs (the
refresh never changes the handler's result); but in the navigation
strategy the order is inverted — the network call comes first and a
cache read happens only after a network failure. -/
theorem strategy_ordering (net : Net) (req : Request) (cache : Cache) :
    (req.method = "GET" →
      netAfterRead false (handleApiRequest net req cache).trace = true) ∧
    netAfterRead false (handleStaticAsset net req cache).trace = true ∧
    (runApiRequest net req cache).result = (handleApiRequest net req cache).result ∧
    (∀ e : String, net req = Except.error e →
      (handleNavigation net req cache).trace =
        [Event.netCall req.url, Event.cacheRead "static" "/"]) := by
  refine ⟨?_, ?_, ?_, ?_⟩
  · intro hget
    cases hhit : cacheMatch cache req with
    | some r => simp [handleApiRequest, hget, hhit, netAfterRead]
    | none =>
      cases hnet : net req with
      | ok resp =>
        by_cases hok : resp.ok = true <;>
          simp [handleApiRequest, apiNetworkFetch, cachePut, hget, hhit, hnet, hok,
            netAfterRead]
      | error e =>
        simp [handleApiRequest, apiNetworkFetch, hget, hhit, hnet, netAfterRead]
  · cases hhit : cacheMatch cache req with
    | some r => simp [handleStaticAsset, hhit, netAfterRead]
    | none =>
      cases hnet : net req with
      | ok resp =>
        by_cases hok : resp.ok = true
        · cases hput : cachePut cache req resp <;>
            simp [handleStaticAsset, hhit, hnet, hok, hput, netAfterRead]
        · simp [handleStaticAsset, hhit, hnet, hok, netAfterRead]
      | error e => simp [handleStaticAsset, hhit, hnet, netAfterRead]
  · by_cases hs : (handleApiRequest net req cache).refreshSpawned <;>
      simp [runApiRequest, hs]
  · intro e hnet
    simp [handleNavigation, hnet]

/-- Witness for C9 amended: GET /api/members on a failing network with
an empty cache, and the navigation trace at the same network. -/
theorem strategy_ordering_witness :
    netAfterRead false (handleApiRequest failNet membersReq []).trace = true ∧
    (handleNavigation failNet membersReq []).trace =
      [Event.netCall membersReq.url, Event.cacheRead "static" "/"] :=
  ⟨(strategy_ordering failNet membersReq []).1 rfl,
   (strategy_ordering failNet membersReq []).2.2.2 "NetworkFailure" rfl⟩
